import Mathlib

/-!
Verification of the sentiment-driven NFT pricing / rarity engine.

The repository implements the same engine twice:
* an on-chain Solidity contract `SentimentNFT` (updateSentiment,
  getCurrentMintPrice, getRarityTier, mintNFT, _updateAllNFTSentiments,
  getSentimentEvolution), embedded below over exact `Nat` wei arithmetic
  (Solidity integer division is floor division on non-negative values);
* an off-chain TypeScript service (`MemStorage` in server/storage.ts,
  `Web3Service` in lib/web3.ts, `RealSentimentService` in
  lib/real-sentiment.ts), embedded over `ℚ` (JavaScript number arithmetic
  at the inputs considered here is exact well inside the documented
  0.001 tolerance, so rationals are an adequate model).
-/

namespace SentimentNFT

/-- The contract enum RarityTier `{ Common, Rare, UltraRare, Legendary }` { Common, Rare, UltraRare, Legendary }` from the
contract. -/
inductive RarityTier where
  | Common
  | Rare
  | UltraRare
  | Legendary
deriving DecidableEq, Repr

/-- The contract struct `NFTMetadata`: mint-time sentiment (immutable),
current sentiment, derived rarity, mint timestamp and an opaque attribute
string. -/
structure NFTMetadata where
  mintSentiment : Nat
  currentSentiment : Nat
  rarity : RarityTier
  mintTimestamp : Nat
  attributes : String
deriving DecidableEq, Repr

/-- Contract storage: `owner()` (from Ownable), `sentimentOracle`,
`currentSentiment`, and the token table.  Token ids are 1-based;
`nfts.get? (i-1)` is `nftMetadata[i]`.  The contract exposes no burn entry
point, so a token exists iff `1 ≤ i ≤ nfts.length` (the `_exists(i)` check
in `_updateAllNFTSentiments` is always true for minted ids).  Addresses are
modelled as `Nat`. -/
structure ContractState where
  owner : Nat
  sentimentOracle : Nat
  currentSentiment : Nat
  nfts : List NFTMetadata
  owners : List Nat
  tokenURIs : List String
deriving DecidableEq, Repr

/-- Revert reasons of the contract, named after the `require` messages:
`NotAuthorizedOracle` = "Not authorized oracle",
`SentimentOutOfRange` = "Sentiment must be <= 1000" (the spec's
`OutOfRangeSentiment`), `InsufficientPayment` = "Insufficient payment",
`TokenDoesNotExist` = "Token does not exist". -/
inductive ContractError where
  | NotAuthorizedOracle
  | SentimentOutOfRange
  | InsufficientPayment
  | TokenDoesNotExist
deriving DecidableEq, Repr

/-- Contract events. -/
inductive Event where
  | SentimentUpdated (newSentiment : Nat)
  | NFTMinted (tokenId toAddr sentiment price : Nat)
  | NFTEvolved (tokenId newSentiment : Nat) (newRarity : RarityTier)
deriving DecidableEq, Repr

/-- Fresh contract storage: the constructor leaves `sentimentOracle` at
`address(0)` and `currentSentiment` at its declared default `500`. -/
def initialState (deployer : Nat) : ContractState :=
  { owner := deployer
    sentimentOracle := 0
    currentSentiment := 500
    nfts := []
    owners := []
    tokenURIs := [] }

/-- Function `getRarityTier` from the contract:
`if (sentiment > 800) return Legendary; if (sentiment > 600) return
UltraRare; if (sentiment > 400) return Rare; return Common;`. -/
def getRarityTier (sentiment : Nat) : RarityTier :=
  if sentiment > 800 then RarityTier.Legendary
  else if sentiment > 600 then RarityTier.UltraRare
  else if sentiment > 400 then RarityTier.Rare
  else RarityTier.Common

/-- Function `getCurrentMintPrice` from the contract, in wei over the given current
sentiment.  `BASE_PRICE = 0.01 ether = 10^16`;
`sentimentPrice = BASE_PRICE + currentSentiment * 49 ether / 100000`;
`multiplier = 1000 + currentSentiment * 2`;
result `= sentimentPrice * multiplier / 1000` (floor division, as in
Solidity). -/
def getCurrentMintPrice (currentSentiment : Nat) : Nat :=
  let sentimentPrice :=
    10000000000000000 + currentSentiment * 49000000000000000000 / 100000
  let multiplier := 1000 + currentSentiment * 2
  sentimentPrice * multiplier / 1000

/-- One iteration of the loop body of `_updateAllNFTSentiments`: set the
record's `currentSentiment`, recompute the rarity, and if it changed store
it and emit `NFTEvolved(tokenId, newSentiment, newRarity)`. -/
def updateOneNFT (newSentiment tokenId : Nat) (m : NFTMetadata) :
    NFTMetadata × List Event :=
  let m1 := { m with currentSentiment := newSentiment }
  let newRarity := getRarityTier newSentiment
  if newRarity ≠ m.rarity then
    ({ m1 with rarity := newRarity },
     [Event.NFTEvolved tokenId newSentiment newRarity])
  else
    (m1, [])

/-- The loop of `_updateAllNFTSentiments` over the suffix of the token table
starting at token id `i`, returning the updated records and the emitted
`NFTEvolved` events in loop order. -/
def updateAllFrom (newSentiment i : Nat) :
    List NFTMetadata → List NFTMetadata × List Event
  | [] => ([], [])
  | m :: rest =>
    let r1 := updateOneNFT newSentiment i m
    let r2 := updateAllFrom newSentiment (i + 1) rest
    (r1.1 :: r2.1, r1.2 ++ r2.2)

/-- Function `updateSentiment` from the contract.  The `onlyOracle` modifier requires
`msg.sender == sentimentOracle || msg.sender == owner()`; the body requires
`_sentiment <= 1000`, stores the new global sentiment, emits
`SentimentUpdated`, and runs `_updateAllNFTSentiments`.  A revert
(`Except.error`) performs no mutation. -/
def updateSentiment (msgSender sentiment : Nat) (st : ContractState) :
    Except ContractError (ContractState × List Event) :=
  if msgSender = st.sentimentOracle ∨ msgSender = st.owner then
    if sentiment ≤ 1000 then
      let r := updateAllFrom sentiment 1 st.nfts
      Except.ok ({ st with currentSentiment := sentiment, nfts := r.1 },
                 Event.SentimentUpdated sentiment :: r.2)
    else
      Except.error ContractError.SentimentOutOfRange
  else
    Except.error ContractError.NotAuthorizedOracle

/-- Function `mintNFT` from the contract.  Requires `msg.value >= mintPrice`;
increments the token counter, stores the metadata at the new id, mints to
`to`, stores the URI, emits `NFTMinted`, and refunds `msg.value - mintPrice`
to the sender when `msg.value > mintPrice`.  Returns the new state, the new
token id, the refund amount sent back to `msgSender`, and the events. -/
def mintNFT (msgSender toAddr : Nat) (tokenURI attributes : String)
    (msgValue blockTimestamp : Nat) (st : ContractState) :
    Except ContractError (ContractState × Nat × Nat × List Event) :=
  let mintPrice := getCurrentMintPrice st.currentSentiment
  if msgValue < mintPrice then
    Except.error ContractError.InsufficientPayment
  else
    let tokenId := st.nfts.length + 1
    let meta : NFTMetadata :=
      { mintSentiment := st.currentSentiment
        currentSentiment := st.currentSentiment
        rarity := getRarityTier st.currentSentiment
        mintTimestamp := blockTimestamp
        attributes := attributes }
    let refund := if msgValue > mintPrice then msgValue - mintPrice else 0
    have _ := msgSender
    Except.ok
      ({ st with nfts := st.nfts ++ [meta]
                 owners := st.owners ++ [toAddr]
                 tokenURIs := st.tokenURIs ++ [tokenURI] },
       tokenId, refund,
       [Event.NFTMinted tokenId toAddr st.currentSentiment mintPrice])

/-- Predicate `_exists(tokenId)` for this contract: ids are 1-based and nothing is
ever burned. -/
def tokenExists (st : ContractState) (tokenId : Nat) : Bool :=
  1 ≤ tokenId && tokenId ≤ st.nfts.length

/-- Function `getSentimentEvolution` from the contract: requires the token to exist
and returns `(mintSentiment, currentSentiment,
int256(currentSentiment) - int256(mintSentiment))`. -/
def getSentimentEvolution (tokenId : Nat) (st : ContractState) :
    Except ContractError (Nat × Nat × Int) :=
  if tokenExists st tokenId then
    match st.nfts.get? (tokenId - 1) with
    | some m =>
        Except.ok (m.mintSentiment, m.currentSentiment,
                   (m.currentSentiment : Int) - (m.mintSentiment : Int))
    | none => Except.error ContractError.TokenDoesNotExist
  else
    Except.error ContractError.TokenDoesNotExist

/-- The state a caller observes after `updateSentiment`: the new state on
success, the untouched pre-state on revert (Solidity reverts roll back all
writes). -/
def stateAfterUpdate (msgSender sentiment : Nat) (st : ContractState) :
    ContractState :=
  match updateSentiment msgSender sentiment st with
  | Except.ok r => r.1
  | Except.error _ => st

/-- The state a caller observes after `mintNFT`: the new state on success,
the untouched pre-state on revert. -/
def stateAfterMint (msgSender toAddr : Nat) (tokenURI attributes : String)
    (msgValue blockTimestamp : Nat) (st : ContractState) : ContractState :=
  match mintNFT msgSender toAddr tokenURI attributes msgValue blockTimestamp st with
  | Except.ok r => r.1
  | Except.error _ => st

end SentimentNFT

namespace MemStorage

/-- The slice of an off-chain NFT row (server/storage.ts `createNft`) that
the sentiment engine computes: `mintPrice`, `currentSentiment` and
`rarityTier`. -/
structure OffNft where
  mintPrice : ℚ
  currentSentiment : ℚ
  rarityTier : String
deriving DecidableEq, Repr

/-- The `MemStorage` state the sentiment engine touches: the NFT map (in
insertion order) and the `sentimentData` series, reduced to its
`marketSentiment` column (appended in timestamp order, so the latest entry
is the last element). -/
structure StorageState where
  nfts : List OffNft
  sentimentData : List ℚ
deriving DecidableEq, Repr

/-- Method `getLatestSentimentData`:
`this.sentimentData[this.sentimentData.length - 1]`. -/
def getLatestSentimentData (st : StorageState) : Option ℚ :=
  st.sentimentData.getLast?

/-- JavaScript's `x.toFixed(4)` converted back to a number, on the exact
rationals arising here: round to 4 decimal digits, halves away from the
nearest even being irrelevant at the inputs considered (all exactly
representable). -/
def toFixed4 (q : ℚ) : ℚ :=
  (round (q * 10000) : ℚ) / 10000

/-- The mint-price computation inlined in `MemStorage.createNft`:
`sentimentMultiplier = 1 + baseSentiment * 2`;
`basePrice = 0.01 + baseSentiment * 0.49`;
`finalPrice = Number((basePrice * sentimentMultiplier).toFixed(4))`. -/
def storageMintPrice (baseSentiment : ℚ) : ℚ :=
  let sentimentMultiplier := 1 + baseSentiment * 2
  let basePrice := 0.01 + baseSentiment * 0.49
  toFixed4 (basePrice * sentimentMultiplier)

/-- The rarity computation inlined in `MemStorage.createNft`:
`let rarityTier = "common"; if (baseSentiment > 0.8) "legendary";
else if (baseSentiment > 0.6) "ultra_rare";
else if (baseSentiment > 0.4) "rare";`. -/
def storageRarityTier (baseSentiment : ℚ) : String :=
  if baseSentiment > 0.8 then "legendary"
  else if baseSentiment > 0.6 then "ultra_rare"
  else if baseSentiment > 0.4 then "rare"
  else "common"

/-- Method `MemStorage.createNft`: `baseSentiment = latestSentiment?.marketSentiment
|| 0.5` (the JavaScript `||` also maps a stored `0` to `0.5`), price and
rarity as above, and the row is stored with
`currentSentiment = baseSentiment`.  Returns the new state and the created
row. -/
def createNft (st : StorageState) : StorageState × OffNft :=
  let baseSentiment :=
    match getLatestSentimentData st with
    | some q => if q = 0 then 0.5 else q
    | none => 0.5
  let nft : OffNft :=
    { mintPrice := storageMintPrice baseSentiment
      currentSentiment := baseSentiment
      rarityTier := storageRarityTier baseSentiment }
  ({ st with nfts := st.nfts ++ [nft] }, nft)

/-- Method `MemStorage.createSentimentData`: appends a new sentiment sample (so it
becomes the latest).  NFT rows are not touched. -/
def createSentimentData (s : ℚ) (st : StorageState) : StorageState :=
  { st with sentimentData := st.sentimentData ++ [s] }

/-- The periodic refresh in server/routes.ts (`setInterval` body): it
computes a new sentiment value, commits it via
`storage.createSentimentData`, and broadcasts it.  It never calls
`storage.updateNftSentiment`. -/
def periodicRefresh (s : ℚ) (st : StorageState) : StorageState :=
  createSentimentData s st

/-- Decidable form of the spec invariant for the off-chain store: every NFT
row's `currentSentiment` equals the latest committed global sentiment. -/
def sentimentInvariantHolds (st : StorageState) : Bool :=
  st.nfts.all fun n =>
    match getLatestSentimentData st with
    | some g => n.currentSentiment == g
    | none => true

end MemStorage

namespace Web3Service

/-- Outcome of `Web3Service.updateSentiment` (client/src/lib/web3.ts):
`mockSuccess` is the early-return of the mock-mode branch (simulated delay
and a random transaction hash, `success: true`); `notInitialized` is the
"Oracle Web3Service not initialized" failure; `outOfRange` is the
"Sentiment value must be between 0 and 1." failure (the spec's
`OutOfRangeSentiment`); `submitted scaled` means the scaled value was sent
to the contract's `updateSentiment` — only this outcome can mutate any
state. -/
inductive UpdateOutcome where
  | mockSuccess
  | notInitialized
  | outOfRange
  | submitted (scaled : Int)
deriving DecidableEq, Repr

/-- Method `Web3Service.updateSentiment(sentimentValue)`.  The mock-mode branch
(`useMockMode && !oracleContract`) returns success immediately, before any
range validation.  Otherwise, without an oracle contract it fails as
uninitialized; with one it computes
`scaledSentiment = Math.round(sentimentValue * 1000)` (JavaScript
`Math.round` is `⌊x + 1/2⌋`, which is Mathlib's `round` on `ℚ`), rejects
`scaledSentiment < 0 || scaledSentiment > 1000`, and otherwise submits the
transaction. -/
def updateSentiment (useMockMode hasOracleContract : Bool)
    (sentimentValue : ℚ) : UpdateOutcome :=
  if useMockMode && !hasOracleContract then
    UpdateOutcome.mockSuccess
  else if !hasOracleContract then
    UpdateOutcome.notInitialized
  else
    let scaledSentiment : Int := round (sentimentValue * 1000)
    if scaledSentiment < 0 ∨ scaledSentiment > 1000 then
      UpdateOutcome.outOfRange
    else
      UpdateOutcome.submitted scaledSentiment

/-- Method `Web3Service.getRarityFromSentiment` (client/src/lib/web3.ts):
`if (sentiment > 0.8) "Legendary"; if (sentiment > 0.6) "Ultra Rare";
if (sentiment > 0.4) "Rare"; return "Common";`. -/
def getRarityFromSentiment (sentiment : ℚ) : String :=
  if sentiment > 0.8 then "Legendary"
  else if sentiment > 0.6 then "Ultra Rare"
  else if sentiment > 0.4 then "Rare"
  else "Common"

end Web3Service

namespace RealSentiment

/-- A sentiment source as seen by
`RealSentimentService.getRealWorldSentiment` after `Promise.allSettled`:
its configured weight, and `some value` when the fetch fulfilled or `none`
when it rejected.  The configured list is crypto (0.5), fearGreed (0.3),
news (0.2). -/
structure SourceOutcome where
  weight : ℚ
  result : Option ℚ
deriving DecidableEq, Repr

/-- The accumulation loop of `getRealWorldSentiment`: fulfilled sources add
`sentiment * weight` to `weightedSentiment` and `weight` to `totalWeight`;
rejected sources add nothing to either (only the per-source display map
records `0.5` for them). -/
def accumulate (outcomes : List SourceOutcome) : ℚ × ℚ :=
  outcomes.foldl
    (fun acc o =>
      match o.result with
      | some s => (acc.1 + s * o.weight, acc.2 + o.weight)
      | none => acc)
    (0, 0)

/-- The aggregate of `getRealWorldSentiment`:
`overall = totalWeight > 0 ? weightedSentiment / totalWeight : 0.5`,
clamped by `Math.max(0, Math.min(1, overall))`.  The function is total: a
source failure never surfaces to the caller. -/
def getRealWorldSentiment (outcomes : List SourceOutcome) : ℚ :=
  let acc := accumulate outcomes
  let overall := if acc.2 > 0 then acc.1 / acc.2 else 0.5
  max 0 (min 1 overall)

/-- What the spec sentence describes, for comparison: a failed source is
replaced by a neutral `0.5` contribution *at its configured weight*, so
every source's weight always enters the denominator. -/
def specAggregate (outcomes : List SourceOutcome) : ℚ :=
  let acc := outcomes.foldl
    (fun acc o =>
      match o.result with
      | some s => (acc.1 + s * o.weight, acc.2 + o.weight)
      | none => (acc.1 + 0.5 * o.weight, acc.2 + o.weight))
    ((0 : ℚ), (0 : ℚ))
  let overall := if acc.2 > 0 then acc.1 / acc.2 else 0.5
  max 0 (min 1 overall)

end RealSentiment

/-!
## Theorems
-/

namespace SentimentNFT

/-- C10: `getRarityTier` is total on unsigned integers and returns
`Legendary` for every sentiment above 800, including values above 1000
that `updateSentiment` would reject. -/
theorem getRarityTier_legendary_above_800 (s : Nat) (h : 800 < s) :
    getRarityTier s = RarityTier.Legendary := by
  simp [getRarityTier, h]

/-- Witness for C10 at the out-of-domain input 1500. -/
theorem getRarityTier_legendary_above_800_witness :
    800 < 1500 ∧ getRarityTier 1500 = RarityTier.Legendary :=
  ⟨by decide, getRarityTier_legendary_above_800 1500 (by decide)⟩

/-- C8: a sentiment update from a caller that is neither the sentiment
oracle nor the owner reverts with the "Not authorized oracle" error and
leaves the contract state unchanged. -/
theorem updateSentiment_unauthorized (caller s : Nat) (st : ContractState)
    (hOracle : caller ≠ st.sentimentOracle) (hOwner : caller ≠ st.owner) :
    updateSentiment caller s st =
      Except.error ContractError.NotAuthorizedOracle ∧
    stateAfterUpdate caller s st = st := by
  have hauth : ¬ (caller = st.sentimentOracle ∨ caller = st.owner) := by
    tauto
  constructor
  · simp [updateSentiment, hauth]
  · simp [stateAfterUpdate, updateSentiment, hauth]

/-- Witness for C8: caller 5 against oracle 1 / owner 2. -/
theorem updateSentiment_unauthorized_witness :
    (5 : Nat) ≠ 1 ∧ (5 : Nat) ≠ 2 ∧
    (updateSentiment 5 700 ⟨2, 1, 500, [], [], []⟩ =
       Except.error ContractError.NotAuthorizedOracle ∧
     stateAfterUpdate 5 700 ⟨2, 1, 500, [], [], []⟩ =
       ⟨2, 1, 500, [], [], []⟩) :=
  ⟨by decide, by decide,
   updateSentiment_unauthorized 5 700 ⟨2, 1, 500, [], [], []⟩
     (by decide) (by decide)⟩

/-- C6: minting with payment equal to the computed price succeeds with no
refund; payment strictly below the price reverts with "Insufficient
payment" and creates no token (the state is unchanged); payment strictly
above the price succeeds and refunds the excess `payment - price` to the
caller. -/
theorem mintNFT_payment_semantics (sender toAddr : Nat)
    (uri attrs : String) (v ts : Nat) (st : ContractState) :
    (v = getCurrentMintPrice st.currentSentiment →
       ∃ st1 ev, mintNFT sender toAddr uri attrs v ts st =
           Except.ok (st1, st.nfts.length + 1, 0, ev) ∧
         st1.nfts.length = st.nfts.length + 1) ∧
    (v < getCurrentMintPrice st.currentSentiment →
       mintNFT sender toAddr uri attrs v ts st =
         Except.error ContractError.InsufficientPayment ∧
       stateAfterMint sender toAddr uri attrs v ts st = st) ∧
    (getCurrentMintPrice st.currentSentiment < v →
       ∃ st1 ev, mintNFT sender toAddr uri attrs v ts st =
           Except.ok (st1, st.nfts.length + 1,
             v - getCurrentMintPrice st.currentSentiment, ev) ∧
         st1.nfts.length = st.nfts.length + 1) := by
  refine ⟨?_, ?_, ?_⟩
  · intro hEq
    subst hEq
    refine ⟨{ st with
        nfts := st.nfts ++
          [{ mintSentiment := st.currentSentiment
             currentSentiment := st.currentSentiment
             rarity := getRarityTier st.currentSentiment
             mintTimestamp := ts
             attributes := attrs }]
        owners := st.owners ++ [toAddr]
        tokenURIs := st.tokenURIs ++ [uri] },
      [Event.NFTMinted (st.nfts.length + 1) toAddr st.currentSentiment
         (getCurrentMintPrice st.currentSentiment)], ?_, ?_⟩
    · simp [mintNFT]
    · simp
  · intro hLt
    constructor
    · simp [mintNFT, hLt]
    · simp [stateAfterMint, mintNFT, hLt]
  · intro hGt
    have hlt : ¬ v < getCurrentMintPrice st.currentSentiment := by omega
    refine ⟨{ st with
        nfts := st.nfts ++
          [{ mintSentiment := st.currentSentiment
             currentSentiment := st.currentSentiment
             rarity := getRarityTier st.currentSentiment
             mintTimestamp := ts
             attributes := attrs }]
        owners := st.owners ++ [toAddr]
        tokenURIs := st.tokenURIs ++ [uri] },
      [Event.NFTMinted (st.nfts.length + 1) toAddr st.currentSentiment
         (getCurrentMintPrice st.currentSentiment)], ?_, ?_⟩
    · simp [mintNFT, hlt, hGt]
    · simp

/-- Witness for C6 on a fresh contract (sentiment 500, price
0.51 ether = 510000000000000000 wei), with exact, short and excess
payments. -/
theorem mintNFT_payment_semantics_witness :
    ((510000000000000000 : Nat) =
        getCurrentMintPrice (initialState 0).currentSentiment →
      ∃ st1 ev, mintNFT 7 8 "u" "a" 510000000000000000 0 (initialState 0) =
          Except.ok (st1, (initialState 0).nfts.length + 1, 0, ev) ∧
        st1.nfts.length = (initialState 0).nfts.length + 1) ∧
    ((1 : Nat) < getCurrentMintPrice (initialState 0).currentSentiment →
      mintNFT 7 8 "u" "a" 1 0 (initialState 0) =
        Except.error ContractError.InsufficientPayment ∧
      stateAfterMint 7 8 "u" "a" 1 0 (initialState 0) = initialState 0) ∧
    (getCurrentMintPrice (initialState 0).currentSentiment <
        600000000000000000 →
      ∃ st1 ev, mintNFT 7 8 "u" "a" 600000000000000000 0 (initialState 0) =
          Except.ok (st1, (initialState 0).nfts.length + 1,
            600000000000000000 -
              getCurrentMintPrice (initialState 0).currentSentiment, ev) ∧
        st1.nfts.length = (initialState 0).nfts.length + 1) :=
  ⟨fun h => (mintNFT_payment_semantics 7 8 "u" "a"
      510000000000000000 0 (initialState 0)).1 h,
   fun h => (mintNFT_payment_semantics 7 8 "u" "a"
      1 0 (initialState 0)).2.1 h,
   fun h => (mintNFT_payment_semantics 7 8 "u" "a"
      600000000000000000 0 (initialState 0)).2.2 h⟩

end SentimentNFT

/-- C1: at the neutral sentiment (500 on-chain, 0.5 off-chain) both the
contract's `getCurrentMintPrice` and the off-chain `createNft` price
computation evaluate to 0.51 ether, which misses the documented reference
price 0.3825 by far more than the documented epsilon 0.001.  The
contract's own test suite (`contracts/test/SentimentNFT.test.js`,
"Should calculate correct price for neutral sentiment") expects
`closeTo(0.3825 ether, 0.001 ether)`, so the code contradicts its own
tests here. -/
theorem price_at_neutral_sentiment_is_051 :
    SentimentNFT.getCurrentMintPrice 500 = 510000000000000000 ∧
    (MemStorage.createNft ⟨[], [0.5]⟩).2.mintPrice = 51 / 100 ∧
    (3825 : ℚ) / 10000 + 1 / 1000 < 51 / 100 ∧
    (382500000000000000 : Nat) + 1000000000000000 < 510000000000000000 := by
  refine ⟨by decide, ?_, by norm_num, by decide⟩
  simp [MemStorage.createNft, MemStorage.getLatestSentimentData,
    MemStorage.storageMintPrice, MemStorage.toFixed4]
  rw [round_eq]
  norm_num

namespace SentimentNFT

theorem updateOneNFT_fields (s i : Nat) (m : NFTMetadata) :
    (updateOneNFT s i m).1.currentSentiment = s ∧
    (updateOneNFT s i m).1.rarity = getRarityTier s := by
  by_cases h : getRarityTier s = m.rarity
  · simp [updateOneNFT, h]
  · simp [updateOneNFT, h]

theorem updateOneNFT_noop (s i : Nat) (m : NFTMetadata)
    (h1 : m.currentSentiment = s) (h2 : m.rarity = getRarityTier s) :
    updateOneNFT s i m = (m, []) := by
  cases m
  simp_all [updateOneNFT]

theorem updateAllFrom_fst_mem (s i : Nat) (l : List NFTMetadata) :
    ∀ m ∈ (updateAllFrom s i l).1,
      m.currentSentiment = s ∧ m.rarity = getRarityTier s := by
  induction l generalizing i with
  | nil => intro m hm; simp [updateAllFrom] at hm
  | cons a rest ih =>
    intro m hm
    simp only [updateAllFrom, List.mem_cons] at hm
    rcases hm with h | h
    · subst h; exact updateOneNFT_fields s i a
    · exact ih (i + 1) m h

theorem updateAllFrom_noop (s i : Nat) (l : List NFTMetadata)
    (h : ∀ m ∈ l, m.currentSentiment = s ∧ m.rarity = getRarityTier s) :
    updateAllFrom s i l = (l, []) := by
  induction l generalizing i with
  | nil => simp [updateAllFrom]
  | cons a rest ih =>
    have ha := h a (List.mem_cons_self a rest)
    rw [updateAllFrom, updateOneNFT_noop s i a ha.1 ha.2,
      ih (i + 1) (fun m hm => h m (List.mem_cons_of_mem a hm))]
    simp

/-- C2 (amended, on-chain part): after a successful on-chain
`updateSentiment`, every stored token record's `currentSentiment` equals
the new global `currentSentiment` — no on-chain record stays stale. -/
theorem updateSentiment_propagates (caller s : Nat) (st st1 : ContractState)
    (ev : List Event) (h : updateSentiment caller s st = Except.ok (st1, ev)) :
    ∀ m ∈ st1.nfts, m.currentSentiment = st1.currentSentiment := by
  unfold updateSentiment at h
  by_cases hauth : caller = st.sentimentOracle ∨ caller = st.owner
  · by_cases hs : s ≤ 1000
    · simp only [hauth, hs, if_true, if_pos] at h
      rw [Except.ok.injEq, Prod.mk.injEq] at h
      obtain ⟨h1, -⟩ := h
      subst h1
      intro m hm
      simp only at hm ⊢
      exact (updateAllFrom_fst_mem s 1 st.nfts m hm).1
    · simp [hauth, hs] at h
  · simp [hauth] at h

/-- Witness for C2's on-chain theorem: oracle 1 pushes 900 over one token
minted at 500. -/
theorem updateSentiment_propagates_witness :
    updateSentiment 1 900 ⟨2, 1, 500, [⟨500, 500, RarityTier.Rare, 0, "a"⟩],
        [3], ["u"]⟩ =
      Except.ok (⟨2, 1, 900, [⟨500, 900, RarityTier.Legendary, 0, "a"⟩],
          [3], ["u"]⟩,
        [Event.SentimentUpdated 900,
         Event.NFTEvolved 1 900 RarityTier.Legendary]) ∧
    ∀ m ∈ (⟨2, 1, 900, [⟨500, 900, RarityTier.Legendary, 0, "a"⟩],
        [3], ["u"]⟩ : ContractState).nfts,
      m.currentSentiment =
        (⟨2, 1, 900, [⟨500, 900, RarityTier.Legendary, 0, "a"⟩],
          [3], ["u"]⟩ : ContractState).currentSentiment :=
  ⟨by rfl,
   updateSentiment_propagates 1 900
     ⟨2, 1, 500, [⟨500, 500, RarityTier.Rare, 0, "a"⟩], [3], ["u"]⟩
     ⟨2, 1, 900, [⟨500, 900, RarityTier.Legendary, 0, "a"⟩], [3], ["u"]⟩
     [Event.SentimentUpdated 900, Event.NFTEvolved 1 900 RarityTier.Legendary]
     (by rfl)⟩

/-- C4: a successful `updateSentiment(s)` applied again with the same `s`
returns the very same state and emits only `SentimentUpdated` — zero
`NFTEvolved` events on the second application. -/
theorem updateSentiment_idempotent (caller s : Nat) (st st1 : ContractState)
    (ev1 : List Event)
    (h : updateSentiment caller s st = Except.ok (st1, ev1)) :
    updateSentiment caller s st1 =
      Except.ok (st1, [Event.SentimentUpdated s]) := by
  unfold updateSentiment at h ⊢
  by_cases hauth : caller = st.sentimentOracle ∨ caller = st.owner
  · by_cases hs : s ≤ 1000
    · simp only [hauth, hs, if_true, if_pos] at h
      rw [Except.ok.injEq, Prod.mk.injEq] at h
      obtain ⟨h1, -⟩ := h
      subst h1
      have hnoop := updateAllFrom_noop s 1 (updateAllFrom s 1 st.nfts).1
        (updateAllFrom_fst_mem s 1 st.nfts)
      simp [hauth, hs, hnoop]
    · simp [hauth, hs] at h
  · simp [hauth] at h

/-- Witness for C4: the second `updateSentiment(900)` returns the same
state with no `NFTEvolved` event. -/
theorem updateSentiment_idempotent_witness :
    updateSentiment 1 900 ⟨2, 1, 500, [⟨500, 500, RarityTier.Rare, 0, "a"⟩],
        [3], ["u"]⟩ =
      Except.ok (⟨2, 1, 900, [⟨500, 900, RarityTier.Legendary, 0, "a"⟩],
          [3], ["u"]⟩,
        [Event.SentimentUpdated 900,
         Event.NFTEvolved 1 900 RarityTier.Legendary]) ∧
    updateSentiment 1 900 ⟨2, 1, 900,
        [⟨500, 900, RarityTier.Legendary, 0, "a"⟩], [3], ["u"]⟩ =
      Except.ok (⟨2, 1, 900, [⟨500, 900, RarityTier.Legendary, 0, "a"⟩],
          [3], ["u"]⟩,
        [Event.SentimentUpdated 900]) :=
  ⟨by rfl,
   updateSentiment_idempotent 1 900
     ⟨2, 1, 500, [⟨500, 500, RarityTier.Rare, 0, "a"⟩], [3], ["u"]⟩
     ⟨2, 1, 900, [⟨500, 900, RarityTier.Legendary, 0, "a"⟩], [3], ["u"]⟩
     [Event.SentimentUpdated 900, Event.NFTEvolved 1 900 RarityTier.Legendary]
     (by rfl)⟩

end SentimentNFT

/-- C2 (counterexample to the off-chain part): in the off-chain store,
mint an NFT while the latest committed sentiment is 0.5, then let the
periodic refresh commit 0.9.  The refresh only appends sentiment data and
never calls `updateNftSentiment` (nothing in the repository calls it), so
the record keeps `currentSentiment = 0.5` while the global latest
sentiment is 0.9: the claimed invariant is false after this off-chain
update completes. -/
theorem offchain_refresh_leaves_stale_record :
    MemStorage.sentimentInvariantHolds
      (MemStorage.periodicRefresh 0.9
        (MemStorage.createNft
          (MemStorage.createSentimentData 0.5 ⟨[], []⟩)).1) = false := by
  norm_num [MemStorage.sentimentInvariantHolds, MemStorage.periodicRefresh,
    MemStorage.createSentimentData, MemStorage.createNft,
    MemStorage.getLatestSentimentData]

namespace SentimentNFT

/-- The storage.ts naming of the rarity tiers ("common", "rare",
"ultra_rare", "legendary"). -/
def tierKey : RarityTier → String
  | RarityTier.Common => "common"
  | RarityTier.Rare => "rare"
  | RarityTier.UltraRare => "ultra_rare"
  | RarityTier.Legendary => "legendary"

/-- The web3.ts naming of the rarity tiers ("Common", "Rare", "Ultra Rare",
"Legendary"). -/
def tierName : RarityTier → String
  | RarityTier.Common => "Common"
  | RarityTier.Rare => "Rare"
  | RarityTier.UltraRare => "Ultra Rare"
  | RarityTier.Legendary => "Legendary"

theorem scale_lt (c : Nat) (s : Nat) :
    ((c : ℚ) / 1000 < (s : ℚ) / 1000) ↔ c < s := by
  rw [div_lt_div_iff₀ (by norm_num) (by norm_num),
    mul_lt_mul_right (by norm_num : (0:ℚ) < 1000)]
  exact_mod_cast Iff.rfl

/-- C3: over the sentiment domain [0,1000], the classifier is Common iff
`s ≤ 400`, Rare iff `401 ≤ s ≤ 600`, UltraRare iff `601 ≤ s ≤ 800` and
Legendary iff `801 ≤ s ≤ 1000`; it is a pure total function, and the two
off-chain real-valued classifiers (`storage.ts` on `s/1000` with its
`common/rare/ultra_rare/legendary` keys, `web3.ts` with its
`Common/Rare/Ultra Rare/Legendary` names) agree with the on-chain tier at
every such sentiment. -/
theorem rarity_classifier_thresholds (s : Nat) (hs : s ≤ 1000) :
    (getRarityTier s = RarityTier.Common ↔ s ≤ 400) ∧
    (getRarityTier s = RarityTier.Rare ↔ 401 ≤ s ∧ s ≤ 600) ∧
    (getRarityTier s = RarityTier.UltraRare ↔ 601 ≤ s ∧ s ≤ 800) ∧
    (getRarityTier s = RarityTier.Legendary ↔ 801 ≤ s ∧ s ≤ 1000) ∧
    MemStorage.storageRarityTier ((s : ℚ) / 1000) = tierKey (getRarityTier s) ∧
    Web3Service.getRarityFromSentiment ((s : ℚ) / 1000) =
      tierName (getRarityTier s) := by
  have h8 : ((s : ℚ) / 1000 > 0.8) ↔ 800 < s := by
    rw [gt_iff_lt, show (0.8 : ℚ) = (800 : ℕ) / 1000 by norm_num]
    exact scale_lt 800 s
  have h6 : ((s : ℚ) / 1000 > 0.6) ↔ 600 < s := by
    rw [gt_iff_lt, show (0.6 : ℚ) = (600 : ℕ) / 1000 by norm_num]
    exact scale_lt 600 s
  have h4 : ((s : ℚ) / 1000 > 0.4) ↔ 400 < s := by
    rw [gt_iff_lt, show (0.4 : ℚ) = (400 : ℕ) / 1000 by norm_num]
    exact scale_lt 400 s
  simp only [getRarityTier, MemStorage.storageRarityTier,
    Web3Service.getRarityFromSentiment, h8, h6, h4, gt_iff_lt]
  by_cases c8 : 800 < s
  · simp [c8, tierKey, tierName]
    omega
  · by_cases c6 : 600 < s
    · simp [c8, c6, tierKey, tierName]
      omega
    · by_cases c4 : 400 < s
      · simp [c8, c6, c4, tierKey, tierName]
        omega
      · simp [c8, c6, c4, tierKey, tierName]
        omega

/-- Witness for C3 at the neutral sentiment 500. -/
theorem rarity_classifier_thresholds_witness :
    (500 : Nat) ≤ 1000 ∧
    ((getRarityTier 500 = RarityTier.Common ↔ (500 : Nat) ≤ 400) ∧
     (getRarityTier 500 = RarityTier.Rare ↔ 401 ≤ 500 ∧ (500 : Nat) ≤ 600) ∧
     (getRarityTier 500 = RarityTier.UltraRare ↔
        601 ≤ 500 ∧ (500 : Nat) ≤ 800) ∧
     (getRarityTier 500 = RarityTier.Legendary ↔
        801 ≤ 500 ∧ (500 : Nat) ≤ 1000) ∧
     MemStorage.storageRarityTier (((500 : Nat) : ℚ) / 1000) =
       tierKey (getRarityTier 500) ∧
     Web3Service.getRarityFromSentiment (((500 : Nat) : ℚ) / 1000) =
       tierName (getRarityTier 500)) :=
  ⟨by decide, rarity_classifier_thresholds 500 (by decide)⟩

end SentimentNFT

namespace SentimentNFT

/-- C5: from the fresh-contract sentiment 500, a sufficiently paid mint
creates token 1 with rarity Rare; the oracle's `updateSentiment(900)` then
emits exactly one `NFTEvolved` event — for that token, with new rarity
Legendary — and `getSentimentEvolution(1)` afterwards reports original
sentiment 500, current sentiment 900 and signed delta +400. -/
theorem mint_then_update_evolution
    (ownerA oracleA sender toAddr payment ts : Nat) (uri attrs : String)
    (hpay : getCurrentMintPrice 500 ≤ payment) :
    mintNFT sender toAddr uri attrs payment ts
        ⟨ownerA, oracleA, 500, [], [], []⟩ =
      Except.ok (⟨ownerA, oracleA, 500,
          [⟨500, 500, RarityTier.Rare, ts, attrs⟩], [toAddr], [uri]⟩,
        1, payment - getCurrentMintPrice 500,
        [Event.NFTMinted 1 toAddr 500 (getCurrentMintPrice 500)]) ∧
    updateSentiment oracleA 900
        ⟨ownerA, oracleA, 500,
          [⟨500, 500, RarityTier.Rare, ts, attrs⟩], [toAddr], [uri]⟩ =
      Except.ok (⟨ownerA, oracleA, 900,
          [⟨500, 900, RarityTier.Legendary, ts, attrs⟩], [toAddr], [uri]⟩,
        [Event.SentimentUpdated 900,
         Event.NFTEvolved 1 900 RarityTier.Legendary]) ∧
    getSentimentEvolution 1
        ⟨ownerA, oracleA, 900,
          [⟨500, 900, RarityTier.Legendary, ts, attrs⟩], [toAddr], [uri]⟩ =
      Except.ok (500, 900, 400) := by
  have hlt : ¬ payment < getCurrentMintPrice 500 := by omega
  have hr : getRarityTier 500 = RarityTier.Rare := by rfl
  have hne : RarityTier.Legendary ≠ RarityTier.Rare := by decide
  have hrefund : (if getCurrentMintPrice 500 < payment then
      payment - getCurrentMintPrice 500 else 0) =
      payment - getCurrentMintPrice 500 := by
    by_cases hgt : getCurrentMintPrice 500 < payment
    · simp [hgt]
    · simp [hgt]
      omega
  refine ⟨?_, ?_, ?_⟩
  · simp [mintNFT, hlt, hr, hrefund]
  · norm_num [updateSentiment, updateAllFrom, updateOneNFT, getRarityTier,
      hne]
  · norm_num [getSentimentEvolution, tokenExists]

/-- Witness for C5 with an exact payment of 0.51 ether. -/
theorem mint_then_update_evolution_witness :
    getCurrentMintPrice 500 ≤ 510000000000000000 ∧
    (mintNFT 2 3 "u" "a" 510000000000000000 7
        ⟨0, 1, 500, [], [], []⟩ =
      Except.ok (⟨0, 1, 500,
          [⟨500, 500, RarityTier.Rare, 7, "a"⟩], [3], ["u"]⟩,
        1, 510000000000000000 - getCurrentMintPrice 500,
        [Event.NFTMinted 1 3 500 (getCurrentMintPrice 500)]) ∧
    updateSentiment 1 900
        ⟨0, 1, 500, [⟨500, 500, RarityTier.Rare, 7, "a"⟩], [3], ["u"]⟩ =
      Except.ok (⟨0, 1, 900,
          [⟨500, 900, RarityTier.Legendary, 7, "a"⟩], [3], ["u"]⟩,
        [Event.SentimentUpdated 900,
         Event.NFTEvolved 1 900 RarityTier.Legendary]) ∧
    getSentimentEvolution 1
        ⟨0, 1, 900, [⟨500, 900, RarityTier.Legendary, 7, "a"⟩], [3], ["u"]⟩ =
      Except.ok (500, 900, 400)) :=
  ⟨by decide,
   mint_then_update_evolution 0 1 2 3 510000000000000000 7 "u" "a"
     (by decide)⟩

end SentimentNFT

namespace RealSentiment

theorem foldl_skip_none (l : List SourceOutcome) (init : ℚ × ℚ) :
    l.foldl
      (fun acc o =>
        match o.result with
        | some s => (acc.1 + s * o.weight, acc.2 + o.weight)
        | none => acc) init =
    (l.filter fun o => o.result.isSome).foldl
      (fun acc o =>
        match o.result with
        | some s => (acc.1 + s * o.weight, acc.2 + o.weight)
        | none => acc) init := by
  induction l generalizing init with
  | nil => rfl
  | cons a rest ih =>
    rw [List.foldl_cons, List.filter_cons]
    cases h : a.result with
    | none =>
      simp only [h, Option.isSome_none]
      rw [if_neg (by simp)]
      exact ih init
    | some s =>
      simp only [h, Option.isSome_some, if_true]
      rw [List.foldl_cons]
      simp only [h]
      exact ih _

/-- C9 (amended): a rejected source contributes nothing to either the
weighted sum or the total weight — the aggregate equals the aggregate of
the fulfilled sources alone (renormalized over their weights, with the
neutral 0.5 only when every source failed) — and the aggregation is a
total function whose result is always clamped into [0, 1], so a source
failure never surfaces to the caller. -/
theorem getRealWorldSentiment_drops_failed_sources
    (outcomes : List SourceOutcome) :
    getRealWorldSentiment outcomes =
      getRealWorldSentiment (outcomes.filter fun o => o.result.isSome) ∧
    0 ≤ getRealWorldSentiment outcomes ∧
    getRealWorldSentiment outcomes ≤ 1 := by
  refine ⟨?_, ?_, ?_⟩
  · unfold getRealWorldSentiment accumulate
    rw [foldl_skip_none]
  · exact le_max_left _ _
  · exact max_le (by norm_num) (min_le_left _ _)

/-- C9 (counterexample): with the configured weights (crypto 0.5,
fearGreed 0.3, news 0.2), if crypto fulfills with sentiment 1 and the
other two sources fail, the code renormalizes over the surviving weight
and returns 1, whereas substituting a neutral 0.5 contribution at each
failed source's configured weight — what the claim states — would return
0.75.  The claimed neutral-substitution behaviour is therefore not what
the aggregation computes. -/
theorem aggregate_renormalizes_failed_sources :
    getRealWorldSentiment [⟨0.5, some 1⟩, ⟨0.3, none⟩, ⟨0.2, none⟩] = 1 ∧
    specAggregate [⟨0.5, some 1⟩, ⟨0.3, none⟩, ⟨0.2, none⟩] = 3 / 4 ∧
    getRealWorldSentiment [⟨0.5, some 1⟩, ⟨0.3, none⟩, ⟨0.2, none⟩] ≠
      specAggregate [⟨0.5, some 1⟩, ⟨0.3, none⟩, ⟨0.2, none⟩] := by
  have h1 : getRealWorldSentiment
      [⟨0.5, some 1⟩, ⟨0.3, none⟩, ⟨0.2, none⟩] = 1 := by
    norm_num [getRealWorldSentiment, accumulate, List.foldl]
  have h2 : specAggregate
      [⟨0.5, some 1⟩, ⟨0.3, none⟩, ⟨0.2, none⟩] = 3 / 4 := by
    norm_num [specAggregate, List.foldl]
  refine ⟨h1, h2, ?_⟩
  rw [h1, h2]
  norm_num

end RealSentiment

/-- C7 (counterexample): in mock mode (`useMockMode` with no oracle
contract), `Web3Service.updateSentiment` returns the simulated success
before any range validation, so the out-of-range value 2.0 (which scales
to 2000 > 1000) is reported successful instead of failing with the
out-of-range error. -/
theorem web3_mock_mode_skips_range_validation :
    (1000 : ℤ) < round ((2 : ℚ) * 1000) ∧
    Web3Service.updateSentiment true false 2 =
      Web3Service.UpdateOutcome.mockSuccess ∧
    Web3Service.updateSentiment true false 2 ≠
      Web3Service.UpdateOutcome.outOfRange := by
  refine ⟨by norm_num [round_eq], by rfl, ?_⟩
  rw [show Web3Service.updateSentiment true false 2 =
      Web3Service.UpdateOutcome.mockSuccess from rfl]
  decide

/-- C7 (amended): an out-of-range sentiment is rejected with no mutation on
the paths that validate: the contract's `updateSentiment` (for an
authorized caller and a scaled value above 1000) reverts with the
out-of-range error and leaves the state unchanged, and the off-chain
`Web3Service.updateSentiment` with an oracle contract attached (mock mode
or not) returns the out-of-range failure without submitting any
transaction whenever `round(value * 1000)` falls outside [0, 1000].  The
mock-mode-without-contract branch is excluded: it skips validation
(see the counterexample). -/
theorem out_of_range_update_rejected (caller s : Nat)
    (st : SentimentNFT.ContractState) (useMock : Bool) (v : ℚ)
    (hauth : caller = st.sentimentOracle ∨ caller = st.owner)
    (hs : 1000 < s)
    (hv : round (v * 1000) < 0 ∨ round (v * 1000) > 1000) :
    SentimentNFT.updateSentiment caller s st =
      Except.error SentimentNFT.ContractError.SentimentOutOfRange ∧
    SentimentNFT.stateAfterUpdate caller s st = st ∧
    Web3Service.updateSentiment useMock true v =
      Web3Service.UpdateOutcome.outOfRange := by
  have hs' : ¬ s ≤ 1000 := by omega
  refine ⟨?_, ?_, ?_⟩
  · simp [SentimentNFT.updateSentiment, hauth, hs']
  · simp [SentimentNFT.stateAfterUpdate, SentimentNFT.updateSentiment,
      hauth, hs']
  · simp [Web3Service.updateSentiment, hv]

/-- Witness for C7's amended theorem: oracle caller 1, on-chain value 1500,
off-chain value 2.0. -/
theorem out_of_range_update_rejected_witness :
    ((1 : Nat) = 1 ∨ (1 : Nat) = 2) ∧ (1000 : Nat) < 1500 ∧
    (round ((2 : ℚ) * 1000) < 0 ∨ round ((2 : ℚ) * 1000) > 1000) ∧
    (SentimentNFT.updateSentiment 1 1500 ⟨2, 1, 500, [], [], []⟩ =
       Except.error SentimentNFT.ContractError.SentimentOutOfRange ∧
     SentimentNFT.stateAfterUpdate 1 1500 ⟨2, 1, 500, [], [], []⟩ =
       ⟨2, 1, 500, [], [], []⟩ ∧
     Web3Service.updateSentiment false true 2 =
       Web3Service.UpdateOutcome.outOfRange) :=
  ⟨by decide, by decide, Or.inr (by norm_num [round_eq]),
   out_of_range_update_rejected 1 1500 ⟨2, 1, 500, [], [], []⟩ false 2
     (by decide) (by decide) (Or.inr (by norm_num [round_eq]))⟩
